import Mathlib

/-!
# Verification of the Lost-and-Found AI similarity matcher

Shallow embedding of `AI_SIMILARITY/app.py` (Flask service).

Modelling conventions:
* Python floats are idealised as exact rationals (`ℚ`) in the pipeline and as
  real numbers (`ℝ`) in the cosine scorer, where the square root is irrational.
* The two sentence-transformer models, the Firestore client, the HTTP image
  fetch and the upload decoder are external capabilities; they are fields of an
  `Env` record (any behaviour of the externals corresponds to some `Env`).
* Python's `round(x, 2)` (round half to even at two decimals) is modelled by
  `pyRound2`; `str.lower()` / `str.strip()` are modelled character-exactly on
  the ASCII range by `lowerStr` / `pyStrip`.
-/

/-- Round half to even to the nearest integer, as Python's built-in `round`
does on the idealised (exact) value. -/
def roundHalfEven (x : ℚ) : ℤ :=
  if x - ⌊x⌋ < 1 / 2 then ⌊x⌋
  else if 1 / 2 < x - ⌊x⌋ then ⌊x⌋ + 1
  else if ⌊x⌋ % 2 = 0 then ⌊x⌋ else ⌊x⌋ + 1

/-- Model of Python's `round(x, 2)`. -/
def pyRound2 (x : ℚ) : ℚ := (roundHalfEven (x * 100) : ℚ) / 100

theorem roundHalfEven_le {x : ℚ} {b : ℤ} (hb : x ≤ b) : roundHalfEven x ≤ b := by
  unfold roundHalfEven
  have hfb : ⌊x⌋ ≤ b := by
    have := Int.floor_le_floor hb
    rwa [Int.floor_intCast] at this
  split
  · exact hfb
  · rename_i h
    push_neg at h
    have hxf : (⌊x⌋ : ℚ) + 1 / 2 ≤ x := by
      have := Int.floor_le x
      linarith
    have : (⌊x⌋ : ℚ) < b := by
      have : x ≤ (b : ℚ) := by exact_mod_cast hb
      linarith
    have : ⌊x⌋ < b := by exact_mod_cast this
    split
    · omega
    · omega

theorem le_roundHalfEven {x : ℚ} {a : ℤ} (ha : (a : ℚ) ≤ x) : a ≤ roundHalfEven x := by
  unfold roundHalfEven
  have hfa : a ≤ ⌊x⌋ := Int.le_floor.mpr ha
  split
  · exact hfa
  · split
    · omega
    · split <;> omega

theorem pyRound2_bounds {x : ℚ} {a b : ℤ} (ha : (a : ℚ) ≤ x) (hb : x ≤ b) :
    (a : ℚ) ≤ pyRound2 x ∧ pyRound2 x ≤ b := by
  unfold pyRound2
  have h1 : ((100 * a : ℤ) : ℚ) ≤ x * 100 := by push_cast; linarith
  have h2 : x * 100 ≤ ((100 * b : ℤ) : ℚ) := by push_cast; linarith
  have l1 := le_roundHalfEven h1
  have l2 := roundHalfEven_le h2
  constructor
  · rw [le_div_iff₀ (by norm_num : (0:ℚ) < 100)]
    have : ((100 * a : ℤ) : ℚ) ≤ ((roundHalfEven (x * 100) : ℤ) : ℚ) := by exact_mod_cast l1
    push_cast at this ⊢
    linarith
  · rw [div_le_iff₀ (by norm_num : (0:ℚ) < 100)]
    have : ((roundHalfEven (x * 100) : ℤ) : ℚ) ≤ ((100 * b : ℤ) : ℚ) := by exact_mod_cast l2
    push_cast at this ⊢
    linarith

theorem pyRound2_zero : pyRound2 0 = 0 := by
  unfold pyRound2 roundHalfEven
  norm_num

/-! ## Python `str.lower` (ASCII range, as exercised by this service) -/

/-- Model of Python `str.lower` on a single character: ASCII letters `A`–`Z`
are shifted to `a`–`z`, anything else is unchanged. (The service only ever
lowercases the `type` field, whose meaningful values are ASCII.) -/
def lowerChar (c : Char) : Char :=
  if 65 ≤ c.toNat ∧ c.toNat ≤ 90 then Char.ofNat (c.toNat + 32) else c

/-- Model of Python `str.lower` on strings. -/
def lowerStr (s : String) : String := ⟨s.data.map lowerChar⟩

theorem toNat_ofNat_of_lt {m : ℕ} (h : m < 0xd800) : (Char.ofNat m).toNat = m := by
  have hv : m.isValidChar := Or.inl h
  rw [Char.ofNat, dif_pos hv]
  rfl

theorem lowerChar_idem (c : Char) : lowerChar (lowerChar c) = lowerChar c := by
  unfold lowerChar
  by_cases h : 65 ≤ c.toNat ∧ c.toNat ≤ 90
  · rw [if_pos h]
    have ht : (Char.ofNat (c.toNat + 32)).toNat = c.toNat + 32 :=
      toNat_ofNat_of_lt (by omega)
    rw [if_neg]
    rw [ht]
    omega
  · rw [if_neg h, if_neg h]

theorem lowerStr_idem (s : String) : lowerStr (lowerStr s) = lowerStr s := by
  unfold lowerStr
  cases s with
  | mk data =>
    simp only [List.map_map]
    congr 1
    exact List.map_congr_left fun c _ => lowerChar_idem c

/-! ## Python `str.strip` (default whitespace strip) -/

/-- Characters removed by Python's default `str.strip` (ASCII common subset;
the service only strips the `text` field). -/
def pySpace (c : Char) : Bool := c.isWhitespace

/-- Strip `pySpace` characters from both ends of a character list. -/
def stripList (l : List Char) : List Char :=
  ((l.dropWhile pySpace).reverse.dropWhile pySpace).reverse

/-- Model of Python `str.strip()`. -/
def pyStrip (s : String) : String := ⟨stripList s.data⟩

theorem dropWhile_head_false {p : α → Bool} :
    ∀ (l : List α), l.dropWhile p = [] ∨
      ∃ a t, l.dropWhile p = a :: t ∧ p a = false
  | [] => Or.inl rfl
  | a :: t => by
    by_cases h : p a
    · rw [List.dropWhile_cons_of_pos h]
      exact dropWhile_head_false t
    · rw [List.dropWhile_cons_of_neg h]
      exact Or.inr ⟨a, t, rfl, Bool.not_eq_true _ ▸ eq_false_of_ne_true h⟩

theorem dropWhile_idem {p : α → Bool} (l : List α) :
    (l.dropWhile p).dropWhile p = l.dropWhile p := by
  rcases @dropWhile_head_false _ p l with h | ⟨a, t, h, hpa⟩
  · rw [h]; rfl
  · rw [h, List.dropWhile_cons_of_neg (by simp [hpa])]

theorem stripList_prefix_dropWhile (l : List Char) :
    stripList l <+: l.dropWhile pySpace := by
  have h1 : (l.dropWhile pySpace).reverse.dropWhile pySpace <:+
      (l.dropWhile pySpace).reverse := List.dropWhile_suffix pySpace
  have h2 := Iff.mpr List.reverse_prefix h1
  rw [List.reverse_reverse] at h2
  unfold stripList
  exact h2

theorem stripList_noLeadSpace (l : List Char) :
    (stripList l).dropWhile pySpace = stripList l := by
  have hpre := stripList_prefix_dropWhile l
  rcases @dropWhile_head_false _ pySpace l with hnil | ⟨a, t, ha, hpa⟩
  · have hs : stripList l = [] := by
      unfold stripList
      rw [hnil]
      rfl
    rw [hs]
    rfl
  · cases hs : stripList l with
    | nil => rfl
    | cons b bt =>
      rcases hpre with ⟨u, hu⟩
      rw [hs, ha, List.cons_append] at hu
      have hb : b = a := by injection hu
      rw [List.dropWhile_cons_of_neg]
      rw [hb]
      simp [hpa]

theorem stripList_idem (l : List Char) : stripList (stripList l) = stripList l := by
  conv_lhs => rw [stripList]
  rw [stripList_noLeadSpace]
  have hrev : (stripList l).reverse = (l.dropWhile pySpace).reverse.dropWhile pySpace := by
    conv_lhs => rw [stripList]
    rw [List.reverse_reverse]
  rw [hrev, dropWhile_idem]
  conv_rhs => rw [stripList]

theorem pyStrip_idem (s : String) : pyStrip (pyStrip s) = pyStrip s := by
  unfold pyStrip
  exact congrArg String.mk (stripList_idem s.data)

theorem pyStrip_empty : pyStrip ("") = "" := rfl

/-! ## Real-valued cosine scorer (`cosine_similarity` in `app.py`)

`np.dot` / `np.linalg.norm` on float vectors are idealised over `ℝ`; the
square root forces these definitions to be noncomputable. -/

/-- Embedding of `np.dot(vec1, vec2)` on same-modality vectors (componentwise product sum). -/
def dotR (v w : List ℝ) : ℝ := (List.zipWith (fun a b => a * b) v w).sum

/-- Embedding of `np.linalg.norm(vec)`: the Euclidean norm. -/
noncomputable def normR (v : List ℝ) : ℝ := Real.sqrt (dotR v v)

/-- Shallow embedding of `cosine_similarity(vec1, vec2)`:
`(dot / (norm1 * norm2)) if (norm1 * norm2) > 0 else 0`. -/
noncomputable def cosine_similarity (vec1 vec2 : List ℝ) : ℝ :=
  if 0 < normR vec1 * normR vec2 then dotR vec1 vec2 / (normR vec1 * normR vec2) else 0

theorem dotR_self_nonneg (v : List ℝ) : 0 ≤ dotR v v := by
  induction v with
  | nil => simp [dotR]
  | cons a t ih =>
    have hsq : 0 ≤ a * a := mul_self_nonneg a
    simpa [dotR, List.zipWith] using add_nonneg hsq (by simpa [dotR] using ih)

theorem normR_nonneg (v : List ℝ) : 0 ≤ normR v := Real.sqrt_nonneg _

theorem normR_sq (v : List ℝ) : normR v * normR v = dotR v v :=
  Real.mul_self_sqrt (dotR_self_nonneg v)

/-- Cauchy–Schwarz for the (length-truncating) list dot product. -/
theorem dotR_sq_le (v w : List ℝ) : dotR v w * dotR v w ≤ dotR v v * dotR w w := by
  induction v generalizing w with
  | nil => simp [dotR]
  | cons a v' ih =>
    cases w with
    | nil =>
      have h1 : dotR (a :: v') ([] : List ℝ) = 0 := by simp [dotR]
      rw [h1]
      simpa using mul_nonneg (dotR_self_nonneg (a :: v')) (dotR_self_nonneg ([] : List ℝ))
    | cons b w' =>
      have hd := ih w'
      have hP := dotR_self_nonneg v'
      have hQ := dotR_self_nonneg w'
      have hva : dotR (a :: v') (b :: w') = a * b + dotR v' w' := by
        simp [dotR, List.zipWith]
      have hvv : dotR (a :: v') (a :: v') = a * a + dotR v' v' := by
        simp [dotR, List.zipWith]
      have hww : dotR (b :: w') (b :: w') = b * b + dotR w' w' := by
        simp [dotR, List.zipWith]
      rw [hva, hvv, hww]
      set d := dotR v' w'
      set P := dotR v' v'
      set Q := dotR w' w'
      rcases eq_or_lt_of_le hP with hP0 | hPpos
      · have hd0 : d = 0 := by
          have : d * d ≤ 0 := by rw [← hP0] at hd; simpa using hd
          have := mul_self_nonneg d
          nlinarith
        rw [hd0, ← hP0]
        nlinarith [mul_self_nonneg (a * b), mul_self_nonneg a, mul_self_nonneg b,
          mul_nonneg (mul_self_nonneg a) hQ]
      · nlinarith [sq_nonneg (a * d - b * P), mul_pos hPpos hPpos,
          mul_nonneg (mul_nonneg hP hQ) (sq_nonneg (a*b))]

/-- The cosine value is always in `[-1, 1]` (it is `0` in the degenerate
branch, and Cauchy–Schwarz bounds the quotient otherwise). -/
theorem cosine_similarity_bounds (v w : List ℝ) :
    -1 ≤ cosine_similarity v w ∧ cosine_similarity v w ≤ 1 := by
  unfold cosine_similarity
  split
  · rename_i hpos
    have hne : normR v * normR w ≠ 0 := ne_of_gt hpos
    have habs : |dotR v w| ≤ normR v * normR w := by
      have h1 : dotR v w ^ 2 ≤ (normR v * normR w) ^ 2 := by
        rw [sq, sq]
        calc dotR v w * dotR v w ≤ dotR v v * dotR w w := dotR_sq_le v w
        _ = (normR v * normR v) * (normR w * normR w) := by rw [normR_sq, normR_sq]
        _ = (normR v * normR w) * (normR v * normR w) := by ring
      have h2 := Real.sqrt_le_sqrt h1
      rwa [Real.sqrt_sq_eq_abs, Real.sqrt_sq (le_of_lt hpos)] at h2
    constructor
    · rw [neg_le, ← neg_div]
      apply div_le_one_of_le₀ ?_ (le_of_lt hpos)
      have := neg_abs_le (dotR v w)
      linarith
    · apply div_le_one_of_le₀ ?_ (le_of_lt hpos)
      have := le_abs_self (dotR v w)
      linarith
  · norm_num

/-! ## Data model and external environment

Vectors produced by the embedding models are numeric (`List ℚ` in the
idealised pipeline); decoded images and uploaded files are opaque handles.
Every external capability of `app.py` is one `Env` field, so a theorem
quantified over `Env` covers every behaviour of the external world.

The one float value the pipeline consumes from the scorer, the cosine of two
embedding vectors, is irrational in general (`cosine_similarity` above, over
`ℝ`); the pipeline therefore reads it through the `Env.cosine` field, whose
idealised range `[-1, 1]` is exactly what `cosine_similarity_bounds` proves
for the scorer. -/

/-- An embedding vector, as returned by either sentence-transformer model. -/
abbrev Emb := List ℚ

/-- Opaque handle for a decoded PIL image. -/
abbrev Img := Nat

/-- An uploaded file in the multipart-form branch of `/match`
(`request.files['image']`): its `filename` attribute plus opaque content. -/
structure Upload where
  filename : String
  content : Nat
deriving DecidableEq

/-- A normalised candidate record, as produced by
`fetch_items_from_firestore` (`id`, `description`, `image_url`, metadata). -/
structure Item where
  id : String
  description : String
  image_url : Option String
  metadata : List (String × String)
deriving DecidableEq

/-- The external world of `app.py`. -/
structure Env where
  /-- Whether `db is not None`: Firebase initialised successfully. -/
  dbReady : Bool
  /-- Normalised contents of a Firestore collection, as
  `fetch_items_from_firestore` would assemble them when `db` is available. -/
  collection : String → List Item
  /-- The model call `text_model.encode` (never raises in the code). -/
  textModel : String → Emb
  /-- The model call `image_model.encode` inside `get_image_embedding`, whose `try`: `none` models
  a raised exception (caught, logged, `None` returned). -/
  imageModel : Img → Option Emb
  /-- The fetch `load_image_from_url`: HTTP GET + decode, `none` on any failure. -/
  fetchImage : String → Option Img
  /-- Decoding `Image.open(file).convert('RGB')` of an uploaded file, `none` on failure. -/
  openUpload : Upload → Option Img
  /-- Float value of `cosine_similarity` on two embedding vectors
  (idealised over `ℝ` by `cosine_similarity` above; in range `[-1, 1]` by
  `cosine_similarity_bounds`). -/
  cosine : Emb → Emb → ℚ

/-! ## Embedding provider and repository adapter -/

/-- Embedding of `get_text_embedding(text)`: `None` if `text` is empty or whitespace-only,
otherwise `text_model.encode(text)`. -/
def get_text_embedding (env : Env) (text : String) : Option Emb :=
  if text = "" ∨ pyStrip text = "" then none else some (env.textModel text)

/-- Embedding of `get_image_embedding(img)`: encode, `None` if the model raises. -/
def get_image_embedding (env : Env) (img : Img) : Option Emb :=
  env.imageModel img

/-- Embedding of `fetch_items_from_firestore(collection_name)`: `[]` when `db is None`,
otherwise the normalised stream of the named collection. -/
def fetch_items_from_firestore (env : Env) (collection_name : String) : List Item :=
  if env.dbReady then env.collection collection_name else []

/-! ## `calculate_similarity` -/

/-- Constant `TEXT_WEIGHT = 0.3`. -/
def TEXT_WEIGHT : ℚ := 0.3

/-- Constant `IMAGE_WEIGHT = 0.7`. -/
def IMAGE_WEIGHT : ℚ := 0.7

/-- The text branch of `calculate_similarity`: the final `(text_sim, has_text)`
pair. Guard: `query_text` and `target_item.get('description')` both truthy;
then both embeddings must be non-`None`. -/
def textStep (env : Env) (query_text : String) (target_item : Item) : ℚ × Bool :=
  if query_text ≠ "" ∧ target_item.description ≠ "" then
    match get_text_embedding env query_text, get_text_embedding env target_item.description with
    | some query_text_emb, some target_text_emb =>
        (env.cosine query_text_emb target_text_emb, true)
    | _, _ => (0, false)
  else (0, false)

/-- The image branch of `calculate_similarity`: the final
`(image_sim, has_image)` pair. Guard: `query_img is not None` and
`target_item.get('image_url')` truthy (present and non-empty); then the
candidate image must fetch and both embeddings must be non-`None`. -/
def imageStep (env : Env) (query_img : Option Img) (target_item : Item) : ℚ × Bool :=
  match query_img, target_item.image_url with
  | some qimg, some url =>
    if url ≠ "" then
      match env.fetchImage url with
      | some target_img =>
        match get_image_embedding env qimg, get_image_embedding env target_img with
        | some query_img_emb, some target_img_emb =>
            (env.cosine query_img_emb target_img_emb, true)
        | _, _ => (0, false)
      | none => (0, false)
    else (0, false)
  | _, _ => (0, false)

/-- Result dictionary of `calculate_similarity`. -/
structure SimResult where
  overall_score : ℚ
  text_similarity : Option ℚ
  image_similarity : Option ℚ
  has_text : Bool
  has_image : Bool
deriving DecidableEq

/-- Embedding of `calculate_similarity(query_text, query_img, target_item)`. -/
def calculate_similarity (env : Env) (query_text : String) (query_img : Option Img)
    (target_item : Item) : SimResult :=
  let t := textStep env query_text target_item
  let i := imageStep env query_img target_item
  let combined_score : ℚ :=
    if t.2 ∧ i.2 then TEXT_WEIGHT * t.1 + IMAGE_WEIGHT * i.1
    else if t.2 then t.1
    else if i.2 then i.1
    else 0
  { overall_score := pyRound2 (combined_score * 100)
    text_similarity := if t.2 then some (pyRound2 (t.1 * 100)) else none
    image_similarity := if i.2 then some (pyRound2 (i.1 * 100)) else none
    has_text := t.2
    has_image := i.2 }

/-! ## `/match` request, response and orchestrator -/

/-- A `/match` request: either a JSON body `{type, text, imageUrl}` or a
multipart form `{type, text, image file}`. A missing `type`/`text` field is
the empty string (`data.get('type', '')` / `form.get('type', '')`). -/
structure MatchRequest where
  isJson : Bool
  type : String
  text : String
  /-- JSON `imageUrl` field (`data.get('imageUrl')`). -/
  imageUrl : Option String
  /-- Form file `request.files['image']`, when the key is present. -/
  file : Option Upload
deriving DecidableEq

/-- One element of the `matches` array (the dict built in the scoring loop). -/
structure MatchEntry where
  item_id : String
  similarity : SimResult
  description : String
  metadata : List (String × String)
  has_image : Bool
  image_url : Option String
deriving DecidableEq

/-- A JSON response of the service: HTTP status plus the keys that the
returned dictionary actually contains (absent keys are `none`). -/
structure MatchResponse where
  status : Nat
  error : Option String
  message : Option String
  query_type : Option String
  searched_in : Option String
  total_items : Option Nat
  «matches» : Option (List MatchEntry)
deriving DecidableEq

/-- A `200` response with no keys set yet. -/
def MatchResponse.base : MatchResponse :=
  { status := 200, error := none, message := none, query_type := none,
    searched_in := none, total_items := none, «matches» := none }

/-- Resolution of `query_img` from the request (done before validation in the
code): JSON branch fetches a truthy `imageUrl`; form branch decodes an
uploaded file with a truthy `filename`. -/
def resolveQueryImage (env : Env) (req : MatchRequest) : Option Img :=
  if req.isJson then
    match req.imageUrl with
    | some image_url => if image_url ≠ "" then env.fetchImage image_url else none
    | none => none
  else
    match req.file with
    | some image_file => if image_file.filename ≠ "" then env.openUpload image_file else none
    | none => none

/-- The dict appended to `results` for one candidate. -/
def scoreEntry (env : Env) (query_text : String) (query_img : Option Img)
    (target : Item) : MatchEntry :=
  { item_id := target.id
    similarity := calculate_similarity env query_text query_img target
    description :=
      if target.description.length > 100 then target.description.take 100 ++ "..."
      else target.description
    metadata := target.metadata
    has_image := target.image_url.isSome
    image_url := target.image_url }

/-- The `results` list: the scoring loop over all candidates. -/
def scoreAll (env : Env) (query_text : String) (query_img : Option Img)
    (target_items : List Item) : List MatchEntry :=
  target_items.map (scoreEntry env query_text query_img)

/-- Embedding of `results.sort(key=..., reverse=True)`: stable sort, descending by
`similarity['overall_score']`. -/
def sortByScore (results : List MatchEntry) : List MatchEntry :=
  results.mergeSort fun a b =>
    decide (b.similarity.overall_score ≤ a.similarity.overall_score)

/-- Embedding of `search_collection = 'found_items' if query_type == 'lost' else 'lost_items'`. -/
def searchCollection (query_type : String) : String :=
  if query_type = "lost" then ("found_items") else ("lost_items")

/-- Tail of `match_items` from the point where the candidates have been
fetched: empty-pool message, or score → sort → truncate. -/
def afterFetch (env : Env) (query_type query_text : String) (query_img : Option Img)
    (search_collection : String) (target_items : List Item) : MatchResponse :=
  if target_items.isEmpty then
    { MatchResponse.base with
      message := some ("No items found in (" ++ search_collection ++ ") collection")
      «matches» := some [] }
  else
    let results := scoreAll env query_text query_img target_items
    let sorted := sortByScore results
    { MatchResponse.base with
      query_type := some query_type
      searched_in := some search_collection
      total_items := some results.length
      «matches» := some (sorted.take 20) }

/-- Tail of `match_items` from the point where validation has succeeded. -/
def afterValidation (env : Env) (query_type query_text : String)
    (query_img : Option Img) : MatchResponse :=
  afterFetch env query_type query_text query_img (searchCollection query_type)
    (fetch_items_from_firestore env (searchCollection query_type))

/-- Shallow embedding of the `/match` handler `match_items`. -/
def match_items (env : Env) (req : MatchRequest) : MatchResponse :=
  if env.dbReady = false then
    { MatchResponse.base with status := 500, error := some ("Firebase not initialized") }
  else
    let query_type := lowerStr req.type
    let query_text := pyStrip req.text
    let query_img := resolveQueryImage env req
    if query_type = "" ∨ (query_type ≠ "lost" ∧ query_type ≠ "found") then
      { MatchResponse.base with
        status := 400
        error := some ("type must be \"lost\" or \"found\"") }
    else if query_text = "" then
      { MatchResponse.base with
        status := 400
        error := some ("text description is required") }
    else
      afterValidation env query_type query_text query_img

/-! ## Call-count instrumentation for the query-side embeddings

`calculate_similarity` evaluates `get_text_embedding(query_text)` (and, in the
image branch, `get_image_embedding(query_img)`) afresh on every call; these
counters record, straight from the code's control flow, how many times the
underlying model is invoked on the *query* text/image during one request. -/

/-- Number of `text_model.encode(query_text)` invocations performed by one
`calculate_similarity` call: the text branch runs iff `query_text` and the
candidate description are truthy, and `get_text_embedding` invokes the model
iff its argument is neither empty nor whitespace-only. -/
def calculate_similarity_queryTextEncodes (query_text : String) (target_item : Item) : ℕ :=
  if query_text ≠ "" ∧ target_item.description ≠ "" then
    if query_text = "" ∨ pyStrip query_text = "" then 0 else 1
  else 0

/-- Number of `image_model.encode(query_img)` invocations performed by one
`calculate_similarity` call: the image branch computes
`get_image_embedding(query_img)` as soon as its guard passes. -/
def calculate_similarity_queryImageEncodes (query_img : Option Img) (target_item : Item) : ℕ :=
  match query_img, target_item.image_url with
  | some _, some url => if url ≠ "" then 1 else 0
  | _, _ => 0

/-- Total `text_model.encode(query_text)` invocations during one `/match`
request (the scoring loop calls `calculate_similarity` once per candidate). -/
def match_items_queryTextEncodes (env : Env) (req : MatchRequest) : ℕ :=
  if env.dbReady = false then 0
  else
    let query_type := lowerStr req.type
    let query_text := pyStrip req.text
    if query_type = "" ∨ (query_type ≠ "lost" ∧ query_type ≠ "found") then 0
    else if query_text = "" then 0
    else
      ((fetch_items_from_firestore env (searchCollection query_type)).map
        (fun t => calculate_similarity_queryTextEncodes query_text t)).sum

/-- Total `image_model.encode(query_img)` invocations during one `/match`
request. -/
def match_items_queryImageEncodes (env : Env) (req : MatchRequest) : ℕ :=
  if env.dbReady = false then 0
  else
    let query_type := lowerStr req.type
    let query_text := pyStrip req.text
    let query_img := resolveQueryImage env req
    if query_type = "" ∨ (query_type ≠ "lost" ∧ query_type ≠ "found") then 0
    else if query_text = "" then 0
    else
      ((fetch_items_from_firestore env (searchCollection query_type)).map
        (fun t => calculate_similarity_queryImageEncodes query_img t)).sum

/-! ## Sorting bridge lemmas -/

theorem sortByScore_sorted (results : List MatchEntry) :
    (sortByScore results).Pairwise
      (fun a b => b.similarity.overall_score ≤ a.similarity.overall_score) := by
  have htrans : ∀ a b c : MatchEntry,
      (fun a b : MatchEntry =>
        decide (b.similarity.overall_score ≤ a.similarity.overall_score)) a b →
      (fun a b : MatchEntry =>
        decide (b.similarity.overall_score ≤ a.similarity.overall_score)) b c →
      (fun a b : MatchEntry =>
        decide (b.similarity.overall_score ≤ a.similarity.overall_score)) a c := by
    intro a b c hab hbc
    simp only [decide_eq_true_eq] at *
    exact le_trans hbc hab
  have htotal : ∀ a b : MatchEntry,
      ((fun a b : MatchEntry =>
        decide (b.similarity.overall_score ≤ a.similarity.overall_score)) a b ||
       (fun a b : MatchEntry =>
        decide (b.similarity.overall_score ≤ a.similarity.overall_score)) b a) = true := by
    intro a b
    simp only [Bool.or_eq_true, decide_eq_true_eq]
    exact le_total _ _
  have h := List.sorted_mergeSort htrans htotal results
  unfold sortByScore
  exact h.imp fun hab => by simpa using hab

theorem sortByScore_perm (results : List MatchEntry) :
    List.Perm (sortByScore results) results := List.mergeSort_perm results _

theorem length_sortByScore (results : List MatchEntry) :
    (sortByScore results).length = results.length := List.length_mergeSort results

theorem mem_sortByScore {e : MatchEntry} {results : List MatchEntry} :
    e ∈ sortByScore results ↔ e ∈ results := List.mem_mergeSort

/-! ## Concrete fixtures (used by witnesses and counterexamples) -/

/-- An environment whose target collections are empty. -/
def envEmpty : Env :=
  { dbReady := true
    collection := fun _ => []
    textModel := fun _ => [1]
    imageModel := fun _ => some [1]
    fetchImage := fun _ => none
    openUpload := fun _ => none
    cosine := fun _ _ => 1/2 }

/-- A candidate with a description and no image. -/
def itemWallet : Item :=
  { id := "c1", description := "wallet", image_url := none, metadata := [] }

/-- A second text-only candidate. -/
def itemKeys : Item :=
  { id := "c2", description := "keys", image_url := none, metadata := [] }

/-- A candidate whose image URL will fail to fetch in `envBrokenImage`. -/
def itemBroken : Item :=
  { id := "c3", description := "wallet", image_url := some ("broken.png"), metadata := [] }

/-- Environment with one text-only candidate in `found_items`. -/
def envOne : Env := { envEmpty with collection := fun _ => [itemWallet] }

/-- Environment with two described candidates in every collection. -/
def envTwo : Env := { envEmpty with collection := fun _ => [itemWallet, itemKeys] }

/-- Environment where the query upload decodes but every URL fetch fails. -/
def envBrokenImage : Env :=
  { envEmpty with
    collection := fun _ => [itemBroken]
    openUpload := fun _ => some 7 }

/-- Environment whose Firebase initialisation failed. -/
def envNoDb : Env := { envEmpty with dbReady := false }

/-- A valid JSON `lost` query with text only. -/
def reqLost : MatchRequest :=
  { isJson := true, type := "lost", text := "black wallet", imageUrl := none, file := none }

/-- A valid JSON `found` query with text only. -/
def reqFound : MatchRequest :=
  { isJson := true, type := "found", text := "keys", imageUrl := none, file := none }

/-- A form query with text and an uploaded image file. -/
def reqLostImage : MatchRequest :=
  { isJson := false, type := "lost", text := "black wallet", imageUrl := none,
    file := some { filename := "wallet.png", content := 1 } }

/-- An invalid-type query. -/
def reqBadType : MatchRequest :=
  { isJson := true, type := "maybe", text := "keys", imageUrl := none, file := none }


/-! ## Claim theorems -/

/-- **C1**: for every scored candidate, the overall score is
`0.3*text_sim + 0.7*image_sim` when both modalities are present, exactly the
single modality's similarity when one is present (no weight dilution, the
output field for that modality coincides with the overall score), and `0`
when neither is present — each scaled by 100 (and rounded to two decimals)
for output. -/
theorem calculate_similarity_score_combination (env : Env) (query_text : String)
    (query_img : Option Img) (target : Item) :
    ((textStep env query_text target).2 = true → (imageStep env query_img target).2 = true →
      (calculate_similarity env query_text query_img target).overall_score =
        pyRound2 ((TEXT_WEIGHT * (textStep env query_text target).1 +
          IMAGE_WEIGHT * (imageStep env query_img target).1) * 100))
  ∧ ((textStep env query_text target).2 = true → (imageStep env query_img target).2 = false →
      (calculate_similarity env query_text query_img target).overall_score =
        pyRound2 ((textStep env query_text target).1 * 100) ∧
      (calculate_similarity env query_text query_img target).text_similarity =
        some (calculate_similarity env query_text query_img target).overall_score)
  ∧ ((textStep env query_text target).2 = false → (imageStep env query_img target).2 = true →
      (calculate_similarity env query_text query_img target).overall_score =
        pyRound2 ((imageStep env query_img target).1 * 100) ∧
      (calculate_similarity env query_text query_img target).image_similarity =
        some (calculate_similarity env query_text query_img target).overall_score)
  ∧ ((textStep env query_text target).2 = false → (imageStep env query_img target).2 = false →
      (calculate_similarity env query_text query_img target).overall_score = 0) := by
  refine ⟨fun ht hi => ?_, fun ht hi => ?_, fun ht hi => ?_, fun ht hi => ?_⟩ <;>
    simp [calculate_similarity, ht, hi, pyRound2_zero]

/-- Witness for C1 at concrete inputs: a text-only match in `envOne` scores
exactly the text similarity, and appears verbatim in `text_similarity`. -/
theorem calculate_similarity_score_combination_witness :
    (calculate_similarity envOne ("black wallet") none itemWallet).overall_score =
      pyRound2 ((textStep envOne ("black wallet") itemWallet).1 * 100) ∧
    (calculate_similarity envOne ("black wallet") none itemWallet).text_similarity =
      some (calculate_similarity envOne ("black wallet") none itemWallet).overall_score :=
  (calculate_similarity_score_combination envOne ("black wallet") none itemWallet).2.1
    (by decide) (by decide)

/-- **C4**: `cosine_similarity` equals `dot/(|A|*|B|)` whenever both norms are
positive, returns `0` whenever either norm is zero, and its guard
`norm1*norm2 > 0` holds exactly when both norms are positive — so the
division branch is never taken on a zero denominator. -/
theorem cosine_similarity_spec (v w : List ℝ) :
    (0 < normR v ∧ 0 < normR w →
      cosine_similarity v w = dotR v w / (normR v * normR w))
  ∧ (normR v = 0 ∨ normR w = 0 → cosine_similarity v w = 0)
  ∧ (0 < normR v * normR w ↔ 0 < normR v ∧ 0 < normR w) := by
  have hv := normR_nonneg v
  have hw := normR_nonneg w
  have hiff : 0 < normR v * normR w ↔ 0 < normR v ∧ 0 < normR w := by
    constructor
    · intro hpos
      constructor
      · rcases lt_or_eq_of_le hv with h | h
        · exact h
        · exfalso
          rw [← h, zero_mul] at hpos
          exact lt_irrefl 0 hpos
      · rcases lt_or_eq_of_le hw with h | h
        · exact h
        · exfalso
          rw [← h, mul_zero] at hpos
          exact lt_irrefl 0 hpos
    · exact fun ⟨h1, h2⟩ => mul_pos h1 h2
  refine ⟨fun ⟨h1, h2⟩ => ?_, fun h => ?_, hiff⟩
  · unfold cosine_similarity
    rw [if_pos (mul_pos h1 h2)]
  · unfold cosine_similarity
    rw [if_neg]
    intro hpos
    rcases h with h | h
    · rw [h, zero_mul] at hpos
      exact lt_irrefl 0 hpos
    · rw [h, mul_zero] at hpos
      exact lt_irrefl 0 hpos

theorem normR_single_one : normR [(1 : ℝ)] = 1 := by
  have h : dotR [(1 : ℝ)] [(1 : ℝ)] = 1 := by simp [dotR]
  rw [normR, h, Real.sqrt_one]

theorem normR_single_zero : normR [(0 : ℝ)] = 0 := by
  have h : dotR [(0 : ℝ)] [(0 : ℝ)] = 0 := by simp [dotR]
  rw [normR, h, Real.sqrt_zero]

/-- Witness for C4 at concrete vectors: `[1]` against `[1]` takes the
division branch, and the zero vector `[0]` forces the clamped `0`. -/
theorem cosine_similarity_spec_witness :
    cosine_similarity [(1 : ℝ)] [(1 : ℝ)] =
      dotR [(1 : ℝ)] [(1 : ℝ)] / (normR [(1 : ℝ)] * normR [(1 : ℝ)]) ∧
    cosine_similarity [(0 : ℝ)] [(1 : ℝ)] = 0 :=
  ⟨(cosine_similarity_spec [(1 : ℝ)] [(1 : ℝ)]).1
      ⟨by rw [normR_single_one]; norm_num, by rw [normR_single_one]; norm_num⟩,
   (cosine_similarity_spec [(0 : ℝ)] [(1 : ℝ)]).2.1 (Or.inl normR_single_zero)⟩

/-- The exact cosine attains `-1` on real vectors (e.g. `[1]` vs `[-1]`), so a
score pipeline without clamping can surface strictly negative scores. -/
theorem cosine_similarity_attains_neg_one :
    cosine_similarity [(1 : ℝ)] [(-1 : ℝ)] = -1 := by
  have hd : dotR [(1 : ℝ)] [(-1 : ℝ)] = -1 := by simp [dotR]
  have hn : normR [(-1 : ℝ)] = 1 := by
    have h : dotR [(-1 : ℝ)] [(-1 : ℝ)] = 1 := by norm_num [dotR]
    rw [normR, h, Real.sqrt_one]
  unfold cosine_similarity
  rw [hd, hn, normR_single_one]
  norm_num

/-- **C3**: after a valid request passes validation, a `lost` query is
answered entirely from the `found_items` collection and a `found` query from
the `lost_items` collection. -/
theorem match_items_opposite_collection (env : Env) (req : MatchRequest)
    (hdb : env.dbReady = true) (htext : pyStrip req.text ≠ "") :
    (lowerStr req.type = "lost" →
      match_items env req =
        afterFetch env ("lost") (pyStrip req.text) (resolveQueryImage env req)
          "found_items" (fetch_items_from_firestore env ("found_items")))
  ∧ (lowerStr req.type = "found" →
      match_items env req =
        afterFetch env ("found") (pyStrip req.text) (resolveQueryImage env req)
          "lost_items" (fetch_items_from_firestore env ("lost_items"))) := by
  constructor <;> intro hty <;>
    simp [match_items, hdb, hty, htext, afterValidation, searchCollection]

/-- Witness for C3: the concrete `lost` request in `envOne` is answered from
`found_items`. -/
theorem match_items_opposite_collection_witness :
    match_items envOne reqLost =
      afterFetch envOne ("lost") (pyStrip reqLost.text) (resolveQueryImage envOne reqLost)
        "found_items" (fetch_items_from_firestore envOne ("found_items")) :=
  (match_items_opposite_collection envOne reqLost rfl (by decide)).1 (by decide)

/-- **C10**: the `type` field is lowercased before validation and collection
selection, so any request behaves exactly like the same request with its
`type` lowercased (`'LOST'`/`'Found'` are accepted like `'lost'`/`'found'`). -/
theorem match_items_type_case_insensitive (env : Env) (req : MatchRequest) :
    match_items env req = match_items env { req with type := lowerStr req.type } := by
  simp only [match_items, lowerStr_idem, resolveQueryImage]

/-- Counterexample to **C2** as stated: with an empty target collection the
response omits the `total_items` key entirely (the code returns only
`{message, matches}`), so `total_items` does not equal the candidate count 0. -/
theorem match_items_total_items_cex :
    (match_items envEmpty reqLost).total_items ≠
      some (fetch_items_from_firestore envEmpty ("found_items")).length := by
  decide

/-- **C2 (amended)**: for every valid match request the returned `matches` are
sorted by `overall_score` non-increasing and at most 20 long; `total_items`
equals the candidate count before truncation whenever the candidate set is
nonempty, and is absent (the code's empty-pool response has no such key) when
it is empty. -/
theorem match_items_ranking (env : Env) (req : MatchRequest)
    (hdb : env.dbReady = true)
    (hty : lowerStr req.type = "lost" ∨ lowerStr req.type = "found")
    (htext : pyStrip req.text ≠ "") :
    ∃ ms, (match_items env req).«matches» = some ms
      ∧ ms.Pairwise (fun a b => b.similarity.overall_score ≤ a.similarity.overall_score)
      ∧ ms.length ≤ 20
      ∧ (match_items env req).total_items =
          (if (fetch_items_from_firestore env (searchCollection (lowerStr req.type))).isEmpty
           then none
           else some (fetch_items_from_firestore env
                       (searchCollection (lowerStr req.type))).length) := by
  have hkey : match_items env req =
      afterFetch env (lowerStr req.type) (pyStrip req.text) (resolveQueryImage env req)
        (searchCollection (lowerStr req.type))
        (fetch_items_from_firestore env (searchCollection (lowerStr req.type))) := by
    rcases hty with hty | hty <;>
      simp [match_items, hdb, hty, htext, afterValidation, searchCollection]
  rw [hkey]
  unfold afterFetch
  split
  · exact ⟨[], rfl, List.Pairwise.nil, by simp, rfl⟩
  · refine ⟨_, rfl, ?_, ?_, by simp [scoreAll]⟩
    · exact (sortByScore_sorted _).take
    · calc (List.take 20 (sortByScore _)).length ≤ 20 := List.length_take_le ..

/-- Witness for C2 (amended) at a concrete nonempty collection. -/
theorem match_items_ranking_witness :
    ∃ ms, (match_items envOne reqLost).«matches» = some ms
      ∧ ms.Pairwise (fun a b => b.similarity.overall_score ≤ a.similarity.overall_score)
      ∧ ms.length ≤ 20
      ∧ (match_items envOne reqLost).total_items =
          (if (fetch_items_from_firestore envOne (searchCollection (lowerStr reqLost.type))).isEmpty
           then none
           else some (fetch_items_from_firestore envOne
                       (searchCollection (lowerStr reqLost.type))).length) :=
  match_items_ranking envOne reqLost rfl (Or.inl (by decide)) (by decide)

/-- Counterexample to **C8** as stated: the empty-pool response does not
contain `total_items: 0` — the key is absent. -/
theorem match_items_empty_pool_cex :
    (match_items envEmpty reqFound).total_items ≠ some 0 := by decide

/-- **C8 (amended)**: an empty target collection is not an error: the response
is a `200` whose body has `matches: []` and a descriptive message naming the
searched collection — and no other keys (in particular no `total_items`). -/
theorem match_items_empty_pool (env : Env) (req : MatchRequest)
    (hdb : env.dbReady = true)
    (hty : lowerStr req.type = "lost" ∨ lowerStr req.type = "found")
    (htext : pyStrip req.text ≠ "")
    (hempty : fetch_items_from_firestore env (searchCollection (lowerStr req.type)) = []) :
    match_items env req =
      { MatchResponse.base with
        message := some ("No items found in (" ++ searchCollection (lowerStr req.type)
          ++ ") collection")
        «matches» := some [] } := by
  have hkey : match_items env req =
      afterFetch env (lowerStr req.type) (pyStrip req.text) (resolveQueryImage env req)
        (searchCollection (lowerStr req.type))
        (fetch_items_from_firestore env (searchCollection (lowerStr req.type))) := by
    rcases hty with hty | hty <;>
      simp [match_items, hdb, hty, htext, afterValidation, searchCollection]
  rw [hkey, hempty]
  rfl

/-- Witness for C8 (amended) at the concrete empty collection. -/
theorem match_items_empty_pool_witness :
    match_items envEmpty reqFound =
      { MatchResponse.base with
        message := some ("No items found in (" ++ searchCollection (lowerStr reqFound.type)
          ++ ") collection")
        «matches» := some [] } :=
  match_items_empty_pool envEmpty reqFound rfl (Or.inr (by decide)) (by decide) rfl

/-- Counterexample to **C9** as stated ("regardless of other system state"):
when Firebase is uninitialised, an invalid-type request is answered `500`
(the `db is None` check precedes validation), not `400`. -/
theorem match_items_validation_cex :
    (match_items envNoDb reqBadType).status = 500 ∧
    (match_items envNoDb reqBadType).status ≠ 400 := by decide

/-- **C9 (amended)**: provided the repository handle is initialised (`db` not
`None` — checked first by the code), a request whose lowercased type is not
`lost`/`found`, or whose text strips to empty, receives a `400` with the
corresponding explanatory message. -/
theorem match_items_validation (env : Env) (req : MatchRequest)
    (hdb : env.dbReady = true) :
    (¬ (lowerStr req.type = "lost" ∨ lowerStr req.type = "found") →
      (match_items env req).status = 400 ∧
      (match_items env req).error = some ("type must be \"lost\" or \"found\""))
  ∧ ((lowerStr req.type = "lost" ∨ lowerStr req.type = "found") →
      pyStrip req.text = "" →
      (match_items env req).status = 400 ∧
      (match_items env req).error = some ("text description is required")) := by
  constructor
  · intro hbad
    rw [not_or] at hbad
    have hcond : lowerStr req.type = "" ∨
        (lowerStr req.type ≠ "lost" ∧ lowerStr req.type ≠ "found") :=
      Or.inr ⟨hbad.1, hbad.2⟩
    simp [match_items, hdb, hcond]
  · intro hty htext
    rcases hty with hty | hty <;> simp [match_items, hdb, hty, htext]

/-- Witness for C9 (amended): the invalid type `"maybe"` with `db` available
yields the `400` type error, and a whitespace-only text yields the `400` text
error. -/
theorem match_items_validation_witness :
    ((match_items envEmpty reqBadType).status = 400 ∧
      (match_items envEmpty reqBadType).error = some ("type must be \"lost\" or \"found\"")) ∧
    ((match_items envEmpty { reqFound with text := "   " }).status = 400 ∧
      (match_items envEmpty { reqFound with text := "   " }).error =
        some ("text description is required")) :=
  ⟨(match_items_validation envEmpty reqBadType rfl).1 (by decide),
   (match_items_validation envEmpty { reqFound with text := "   " } rfl).2
     (Or.inr (by decide)) (by decide)⟩

theorem sortByScore_singleton (e : MatchEntry) : sortByScore [e] = [e] := by
  unfold sortByScore
  exact List.mergeSort_singleton e

/-- Every entry of a returned `matches` list is the scored entry of some
fetched candidate. -/
theorem afterFetch_matches_of_mem {env : Env} {qt qtext : String} {qimg : Option Img}
    {coll : String} {items : List Item} {ms : List MatchEntry} {m : MatchEntry}
    (hms : (afterFetch env qt qtext qimg coll items).«matches» = some ms)
    (hm : m ∈ ms) : ∃ target ∈ items, m = scoreEntry env qtext qimg target := by
  unfold afterFetch at hms
  by_cases hempty : items.isEmpty
  · rw [if_pos hempty] at hms
    simp only [Option.some.injEq] at hms
    subst hms
    simp at hm
  · rw [if_neg hempty] at hms
    simp only [Option.some.injEq] at hms
    subst hms
    have h1 : m ∈ sortByScore (scoreAll env qtext qimg items) :=
      List.mem_of_mem_take hm
    have h2 : m ∈ scoreAll env qtext qimg items := mem_sortByScore.mp h1
    unfold scoreAll at h2
    obtain ⟨target, htar, heq⟩ := List.mem_map.mp h2
    exact ⟨target, htar, heq.symm⟩

/-- Every entry of a `/match` response comes from `calculate_similarity` on
the request's stripped text and resolved query image. -/
theorem match_items_matches_of_mem {env : Env} {req : MatchRequest}
    {ms : List MatchEntry} {m : MatchEntry}
    (hms : (match_items env req).«matches» = some ms) (hm : m ∈ ms) :
    ∃ target, m = scoreEntry env (pyStrip req.text) (resolveQueryImage env req) target := by
  unfold match_items at hms
  by_cases hdb : env.dbReady = false
  · rw [if_pos hdb] at hms
    exact absurd hms (by simp [MatchResponse.base])
  · rw [if_neg hdb] at hms
    simp only at hms
    by_cases hty : lowerStr req.type = "" ∨
        (lowerStr req.type ≠ "lost" ∧ lowerStr req.type ≠ "found")
    · rw [if_pos hty] at hms
      exact absurd hms (by simp [MatchResponse.base])
    · rw [if_neg hty] at hms
      by_cases htext : pyStrip req.text = ""
      · rw [if_pos htext] at hms
        exact absurd hms (by simp [MatchResponse.base])
      · rw [if_neg htext] at hms
        unfold afterValidation at hms
        obtain ⟨target, _, heq⟩ := afterFetch_matches_of_mem hms hm
        exact ⟨target, heq⟩

/-- The two modality branches only ever yield a cosine value or `0`. -/
theorem textStep_range (env : Env)
    (hcos : ∀ a b : Emb, -1 ≤ env.cosine a b ∧ env.cosine a b ≤ 1)
    (qt : String) (target : Item) :
    -1 ≤ (textStep env qt target).1 ∧ (textStep env qt target).1 ≤ 1 := by
  unfold textStep
  split
  · split
    · exact hcos _ _
    · norm_num
  · norm_num

theorem imageStep_range (env : Env)
    (hcos : ∀ a b : Emb, -1 ≤ env.cosine a b ∧ env.cosine a b ≤ 1)
    (qimg : Option Img) (target : Item) :
    -1 ≤ (imageStep env qimg target).1 ∧ (imageStep env qimg target).1 ≤ 1 := by
  unfold imageStep
  split
  · split
    · split
      · split
        · exact hcos _ _
        · norm_num
      · norm_num
    · norm_num
  · norm_num

/-- If the per-pair cosine values are in `[-1, 1]` (as the exact scorer's are,
by `cosine_similarity_bounds`), every field of a `calculate_similarity`
result lies in `[-100, 100]`. -/
theorem calculate_similarity_range (env : Env)
    (hcos : ∀ a b : Emb, -1 ≤ env.cosine a b ∧ env.cosine a b ≤ 1)
    (qt : String) (qimg : Option Img) (target : Item) :
    (-100 ≤ (calculate_similarity env qt qimg target).overall_score ∧
      (calculate_similarity env qt qimg target).overall_score ≤ 100) ∧
    (∀ x, (calculate_similarity env qt qimg target).text_similarity = some x →
      -100 ≤ x ∧ x ≤ 100) ∧
    (∀ x, (calculate_similarity env qt qimg target).image_similarity = some x →
      -100 ≤ x ∧ x ≤ 100) := by
  obtain ⟨ht1, ht2⟩ := textStep_range env hcos qt target
  obtain ⟨hi1, hi2⟩ := imageStep_range env hcos qimg target
  have hb : ∀ y : ℚ, -1 ≤ y → y ≤ 1 → -100 ≤ pyRound2 (y * 100) ∧ pyRound2 (y * 100) ≤ 100 := by
    intro y hy1 hy2
    have h := @pyRound2_bounds (y * 100) (-100) 100
      (by push_cast; linarith) (by push_cast; linarith)
    constructor
    · have := h.1
      push_cast at this
      linarith
    · have := h.2
      push_cast at this
      linarith
  have hcomb : -1 ≤ (if (textStep env qt target).2 ∧ (imageStep env qimg target).2 then
        TEXT_WEIGHT * (textStep env qt target).1 + IMAGE_WEIGHT * (imageStep env qimg target).1
      else if (textStep env qt target).2 then (textStep env qt target).1
      else if (imageStep env qimg target).2 then (imageStep env qimg target).1
      else 0) ∧ (if (textStep env qt target).2 ∧ (imageStep env qimg target).2 then
        TEXT_WEIGHT * (textStep env qt target).1 + IMAGE_WEIGHT * (imageStep env qimg target).1
      else if (textStep env qt target).2 then (textStep env qt target).1
      else if (imageStep env qimg target).2 then (imageStep env qimg target).1
      else 0) ≤ 1 := by
    split
    · unfold TEXT_WEIGHT IMAGE_WEIGHT
      constructor <;> [nlinarith; nlinarith]
    · split
      · exact ⟨ht1, ht2⟩
      · split
        · exact ⟨hi1, hi2⟩
        · norm_num
  refine ⟨?_, ?_, ?_⟩
  · exact hb _ hcomb.1 hcomb.2
  · intro x hx
    unfold calculate_similarity at hx
    simp only at hx
    by_cases h2 : (textStep env qt target).2
    · rw [if_pos h2] at hx
      obtain rfl : x = pyRound2 ((textStep env qt target).1 * 100) :=
        (Option.some.injEq _ _).mp hx |>.symm
      exact hb _ ht1 ht2
    · rw [if_neg h2] at hx
      exact absurd hx (by simp)
  · intro x hx
    unfold calculate_similarity at hx
    simp only at hx
    by_cases h2 : (imageStep env qimg target).2
    · rw [if_pos h2] at hx
      obtain rfl : x = pyRound2 ((imageStep env qimg target).1 * 100) :=
        (Option.some.injEq _ _).mp hx |>.symm
      exact hb _ hi1 hi2
    · rw [if_neg h2] at hx
      exact absurd hx (by simp)

/-- Environment whose model pair produces an exactly opposite embedding pair,
so the (unclamped) cosine is `-1` — attainable by the exact scorer, see
`cosine_similarity_attains_neg_one`. -/
def envNeg : Env :=
  { envEmpty with
    collection := fun _ => [itemWallet]
    cosine := fun _ _ => -1 }

/-- The rounding `pyRound2` is the identity on integer values. -/
theorem pyRound2_intCast (n : ℤ) : pyRound2 (n : ℚ) = (n : ℚ) := by
  unfold pyRound2 roundHalfEven
  have h : ((n : ℚ) * 100) = ((100 * n : ℤ) : ℚ) := by push_cast; ring
  rw [h, Int.floor_intCast]
  norm_num

/-- Counterexample to **C7** as stated: the code never clamps, so an
anti-aligned candidate is returned with `overall_score = -100`, outside
`[0, 100]`. -/
theorem match_items_score_range_cex :
    ∃ ms m, (match_items envNeg reqLost).«matches» = some ms ∧ m ∈ ms ∧
      m.similarity.overall_score = -100 ∧ ¬ (0 ≤ m.similarity.overall_score) := by
  have h0 : envNeg.dbReady = true := rfl
  have h1 : lowerStr reqLost.type = "lost" := by decide
  have h2 : pyStrip reqLost.text = "black wallet" := by decide
  have h3 : resolveQueryImage envNeg reqLost = none := rfl
  have h4 : fetch_items_from_firestore envNeg ("found_items") = [itemWallet] := rfl
  have hts : textStep envNeg ("black wallet") itemWallet = (-1, true) := by decide
  have his : imageStep envNeg none itemWallet = (0, false) := rfl
  have hpr : pyRound2 (-100) = -100 := by
    have h := pyRound2_intCast (-100)
    push_cast at h
    exact h
  have hover : (calculate_similarity envNeg ("black wallet") none itemWallet).overall_score
      = -100 := by
    simp only [calculate_similarity, hts, his]
    norm_num
    exact hpr
  have hsc : (scoreEntry envNeg ("black wallet") none itemWallet).similarity.overall_score
      = -100 := hover
  refine ⟨[scoreEntry envNeg ("black wallet") none itemWallet],
    scoreEntry envNeg ("black wallet") none itemWallet, ?_, List.mem_singleton_self _,
    hsc, ?_⟩
  · simp [match_items, h0, h1, h2, h3, afterValidation, searchCollection, afterFetch, h4,
      scoreAll, sortByScore_singleton]
  · intro h
    rw [hsc] at h
    norm_num at h

/-- **C7 (amended)**: the code applies no clamping, and the cosine of two
embeddings lies in `[-1, 1]` (`cosine_similarity_bounds`); accordingly every
returned `overall_score`, and every present `text_similarity` /
`image_similarity`, lies in `[-100, 100]` (not `[0, 100]`). -/
theorem match_items_score_range (env : Env) (req : MatchRequest)
    (hcos : ∀ a b : Emb, -1 ≤ env.cosine a b ∧ env.cosine a b ≤ 1)
    (ms : List MatchEntry) (hms : (match_items env req).«matches» = some ms)
    (m : MatchEntry) (hm : m ∈ ms) :
    (-100 ≤ m.similarity.overall_score ∧ m.similarity.overall_score ≤ 100) ∧
    (∀ x, m.similarity.text_similarity = some x → -100 ≤ x ∧ x ≤ 100) ∧
    (∀ x, m.similarity.image_similarity = some x → -100 ≤ x ∧ x ≤ 100) := by
  obtain ⟨target, rfl⟩ := match_items_matches_of_mem hms hm
  simpa [scoreEntry] using
    calculate_similarity_range env hcos (pyStrip req.text) (resolveQueryImage env req) target

/-- Witness for C7 (amended): the concrete `envOne` match result is inside
`[-100, 100]`. -/
theorem match_items_score_range_witness :
    -100 ≤ (scoreEntry envOne ("black wallet") none itemWallet).similarity.overall_score ∧
    (scoreEntry envOne ("black wallet") none itemWallet).similarity.overall_score ≤ 100 := by
  have h0 : envOne.dbReady = true := rfl
  have h1 : lowerStr reqLost.type = "lost" := by decide
  have h2 : pyStrip reqLost.text = "black wallet" := by decide
  have h3 : resolveQueryImage envOne reqLost = none := rfl
  have h4 : fetch_items_from_firestore envOne ("found_items") = [itemWallet] := rfl
  have hms : (match_items envOne reqLost).«matches» =
      some [scoreEntry envOne ("black wallet") none itemWallet] := by
    simp [match_items, h0, h1, h2, h3, afterValidation, searchCollection, afterFetch, h4,
      scoreAll, sortByScore_singleton]
  have hc : ∀ a b : Emb, -1 ≤ envOne.cosine a b ∧ envOne.cosine a b ≤ 1 := by
    intro a b
    constructor <;> norm_num [envOne, envEmpty]
  exact (match_items_score_range envOne reqLost hc _ hms _
    (List.mem_singleton_self _)).1

/-- **C5**: when the query carries both modalities and a candidate's image URL
fails to fetch, that candidate's `image_similarity` is absent (`none`, not
zero), its overall score is exactly its text-only score, and the candidate is
still scored and returned (the failure degrades only that modality, it does
not abort the batch). -/
theorem match_items_broken_candidate_image (env : Env) (req : MatchRequest)
    (hdb : env.dbReady = true)
    (hty : lowerStr req.type = "lost" ∨ lowerStr req.type = "found")
    (htext : pyStrip req.text ≠ "")
    (qi : Img) (himg : resolveQueryImage env req = some qi)
    (target : Item) (url : String) (hurl : target.image_url = some url)
    (hurlne : url ≠ "") (hfetch : env.fetchImage url = none)
    (hdesc : pyStrip target.description ≠ "")
    (htar : target ∈ fetch_items_from_firestore env (searchCollection (lowerStr req.type)))
    (hlen : (fetch_items_from_firestore env (searchCollection (lowerStr req.type))).length ≤ 20) :
    (calculate_similarity env (pyStrip req.text) (some qi) target).image_similarity = none
  ∧ (calculate_similarity env (pyStrip req.text) (some qi) target).overall_score =
      (calculate_similarity env (pyStrip req.text) none target).overall_score
  ∧ ∃ ms, (match_items env req).«matches» = some ms ∧
      scoreEntry env (pyStrip req.text) (some qi) target ∈ ms := by
  have hdescne : target.description ≠ "" := by
    intro h
    exact hdesc (by rw [h]; rfl)
  have hi : imageStep env (some qi) target = (0, false) := by
    unfold imageStep
    rw [hurl]
    simp [hurlne, hfetch]
  have hinone : imageStep env none target = (0, false) := rfl
  refine ⟨?_, ?_, ?_⟩
  · simp [calculate_similarity, hi]
  · simp [calculate_similarity, hi, hinone]
  · have hkey : match_items env req =
        afterFetch env (lowerStr req.type) (pyStrip req.text) (resolveQueryImage env req)
          (searchCollection (lowerStr req.type))
          (fetch_items_from_firestore env (searchCollection (lowerStr req.type))) := by
      rcases hty with hty | hty <;>
        simp [match_items, hdb, hty, htext, afterValidation, searchCollection]
    rw [hkey, ← himg]
    have hne : (fetch_items_from_firestore env (searchCollection (lowerStr req.type))).isEmpty
        = false := by
      cases h : fetch_items_from_firestore env (searchCollection (lowerStr req.type)) with
      | nil =>
        rw [h] at htar
        simp at htar
      | cons a t => rfl
    unfold afterFetch
    rw [hne]
    simp only [Bool.false_eq_true, if_false]
    refine ⟨_, rfl, ?_⟩
    have hmem : scoreEntry env (pyStrip req.text) (resolveQueryImage env req) target ∈
        scoreAll env (pyStrip req.text) (resolveQueryImage env req)
          (fetch_items_from_firestore env (searchCollection (lowerStr req.type))) := by
      unfold scoreAll
      exact List.mem_map.mpr ⟨target, htar, rfl⟩
    have hsorted := mem_sortByScore.mpr hmem
    have hlen2 : (sortByScore (scoreAll env (pyStrip req.text) (resolveQueryImage env req)
        (fetch_items_from_firestore env (searchCollection (lowerStr req.type))))).length ≤ 20 := by
      rw [length_sortByScore]
      unfold scoreAll
      rw [List.length_map]
      exact hlen
    rw [List.take_of_length_le hlen2]
    exact hsorted

/-- Witness for C5: in `envBrokenImage` the uploaded query image decodes but
the candidate's URL fetch fails; the candidate is still returned with
`image_similarity` absent and a text-only score. -/
theorem match_items_broken_candidate_image_witness :
    (calculate_similarity envBrokenImage (pyStrip reqLostImage.text) (some 7)
        itemBroken).image_similarity = none
  ∧ (calculate_similarity envBrokenImage (pyStrip reqLostImage.text) (some 7)
        itemBroken).overall_score =
      (calculate_similarity envBrokenImage (pyStrip reqLostImage.text) none
        itemBroken).overall_score
  ∧ ∃ ms, (match_items envBrokenImage reqLostImage).«matches» = some ms ∧
      scoreEntry envBrokenImage (pyStrip reqLostImage.text) (some 7) itemBroken ∈ ms :=
  match_items_broken_candidate_image envBrokenImage reqLostImage rfl (Or.inl (by decide))
    (by decide) 7 rfl itemBroken ("broken.png") rfl (by decide) rfl (by decide) (by decide)
    (by decide)

/-- Counterexample to **C6** as stated: with two described candidates, the
query text is embedded once per candidate — twice in one request — because
`calculate_similarity` recomputes `get_text_embedding(query_text)` inside the
per-candidate loop; it is not computed once and shared. -/
theorem match_items_query_embeddings_cex :
    match_items_queryTextEncodes envTwo reqLost = 2 ∧
    ¬ (match_items_queryTextEncodes envTwo reqLost ≤ 1) := by
  constructor <;> decide

theorem sum_map_ite_one_eq_length_filter (p : α → Bool) (l : List α) :
    (l.map fun a => if p a then (1 : ℕ) else 0).sum = (l.filter p).length := by
  induction l with
  | nil => rfl
  | cons a t ih =>
    by_cases h : p a
    · simp [List.filter_cons, h, ih]
      omega
    · simp [List.filter_cons, h, ih]

/-- **C6 (amended)**: the query-side embeddings are *recomputed per candidate*
rather than cached: in a valid request the query text is embedded once for
every candidate with a nonempty description, and (when the query image
resolved) the query image is embedded once for every candidate with a truthy
image URL. -/
theorem match_items_query_embeddings_per_candidate (env : Env) (req : MatchRequest)
    (hdb : env.dbReady = true)
    (hty : lowerStr req.type = "lost" ∨ lowerStr req.type = "found")
    (htext : pyStrip req.text ≠ "") :
    match_items_queryTextEncodes env req =
      ((fetch_items_from_firestore env (searchCollection (lowerStr req.type))).filter
        (fun t => t.description != "")).length
  ∧ match_items_queryImageEncodes env req =
      (if (resolveQueryImage env req).isSome then
        ((fetch_items_from_firestore env (searchCollection (lowerStr req.type))).filter
          (fun t => match t.image_url with | some url => url != "" | none => false)).length
       else 0) := by
  have hmid : pyStrip (pyStrip req.text) ≠ "" := by
    rw [pyStrip_idem]
    exact htext
  have hcondT : ∀ t : Item, calculate_similarity_queryTextEncodes (pyStrip req.text) t =
      if t.description != "" then 1 else 0 := by
    intro t
    unfold calculate_similarity_queryTextEncodes
    by_cases hd : t.description = ""
    · simp [hd]
    · simp [hd, htext, hmid]
  have hguard : ¬ (lowerStr req.type = "" ∨
      (lowerStr req.type ≠ "lost" ∧ lowerStr req.type ≠ "found")) := by
    rcases hty with hty | hty <;> simp [hty]
  constructor
  · unfold match_items_queryTextEncodes
    simp only [hdb, Bool.true_eq_false, if_false, hguard, htext]
    rw [List.map_congr_left fun t _ => hcondT t]
    exact sum_map_ite_one_eq_length_filter _ _
  · unfold match_items_queryImageEncodes
    rw [if_neg (by rw [hdb]; exact fun h => by cases h), if_neg hguard, if_neg htext]
    cases hq : resolveQueryImage env req with
    | none =>
      simp only [Option.isSome_none, Bool.false_eq_true, if_false]
      have : ∀ t : Item, calculate_similarity_queryImageEncodes none t = 0 := by
        intro t
        unfold calculate_similarity_queryImageEncodes
        cases t.image_url <;> rfl
      rw [List.map_congr_left fun t _ => this t]
      simp [List.sum_eq_zero]
    | some qi =>
      simp only [Option.isSome_some, if_true]
      have : ∀ t : Item, calculate_similarity_queryImageEncodes (some qi) t =
          if (match t.image_url with | some url => url != "" | none => false) then 1
          else 0 := by
        intro t
        unfold calculate_similarity_queryImageEncodes
        cases hu : t.image_url with
        | none => rfl
        | some url => by_cases hne : url = "" <;> simp [hne]
      rw [List.map_congr_left fun t _ => this t]
      exact sum_map_ite_one_eq_length_filter _ _

/-- Witness for C6 (amended) on the two-candidate fixture: two query-text
embeddings, zero query-image embeddings. -/
theorem match_items_query_embeddings_per_candidate_witness :
    match_items_queryTextEncodes envTwo reqLost =
      ((fetch_items_from_firestore envTwo (searchCollection (lowerStr reqLost.type))).filter
        (fun t => t.description != "")).length
  ∧ match_items_queryImageEncodes envTwo reqLost =
      (if (resolveQueryImage envTwo reqLost).isSome then
        ((fetch_items_from_firestore envTwo (searchCollection (lowerStr reqLost.type))).filter
          (fun t => match t.image_url with | some url => url != "" | none => false)).length
       else 0) :=
  match_items_query_embeddings_per_candidate envTwo reqLost rfl (Or.inl (by decide))
    (by decide)
